import Mathlib

/-!
Shallow embedding of the go-form-parser repository (package formparser).

The embedding follows src/unnamed/part_001 (the most complete version of
formparser.go, the one with the JSON path, the Files map and the
message/fields JSON error body).  External collaborators
(go-playground/form decoder, go-playground/validator, encoding/json,
crypto/sha256) are modelled as function parameters: the claims quantify
over them, they are not code of this repository.

Byte sequences are modelled as lists of characters (`Bytes`), url.Values
as an append-only association list preserving per-key order, and the Go
maps (Config.Files, the field-error map) as association lists whose
insert overwrites the previous binding for the key.
-/

namespace FormParser

abbrev Bytes := List Char

/-- UploadedFile from src/unnamed/part_001: filename, declared MIME type,
content bytes and hex digest of the content. -/
structure UploadedFile where
  filename : String
  contentType : String
  content : Bytes
  hash : String
  deriving DecidableEq

/-- url.Values: a multimap from field name to values.  Go stores
map[string][]string with Add appending to the slice of the key; the
association list keeps exactly that information (per-key order). -/
abbrev Values := List (String × String)

/-- url.Values.Add: append a value for the key. -/
def valuesAdd (v : Values) (key val : String) : Values := v ++ [(key, val)]

/-- The list of values stored for a key, in insertion order. -/
def valuesGet (v : Values) (key : String) : List String :=
  (v.filter (fun kv => kv.1 == key)).map (fun kv => kv.2)

/-- Config.Files: map from field name to UploadedFile. -/
abbrev FilesMap := List (String × UploadedFile)

/-- Go map assignment m[k] = f: the previous binding of k is replaced. -/
def filesInsert (m : FilesMap) (key : String) (f : UploadedFile) : FilesMap :=
  (m.filter (fun kv => kv.1 != key)) ++ [(key, f)]

/-- Go map read m[k]. -/
def filesGet (m : FilesMap) (key : String) : Option UploadedFile :=
  List.lookup key m

/-- Go map[string]string read, first binding of the key. -/
def strMapGet (m : List (String × String)) (key : String) : Option String :=
  match m with
  | [] => none
  | kv :: rest => if kv.1 == key then some kv.2 else strMapGet rest key

/-- Go map[string]string assignment: previous binding replaced. -/
def strMapInsert (m : List (String × String)) (key val : String) :
    List (String × String) :=
  (m.filter (fun kv => kv.1 != key)) ++ [(key, val)]

/-- One multipart part: field name and file name from Content-Disposition,
declared MIME type from the part header, the available content bytes, and
whether reading past the content yields a genuine read error instead of
EOF (transport abort mid-stream). -/
structure Part where
  formName : String
  fileName : String
  contentType : String
  content : Bytes
  readErr : Bool
  deriving DecidableEq

/-- One step of mr.NextPart(): either a part, or a non-EOF read error
during part enumeration.  The end of the event list is EOF. -/
inductive PartEvent where
  | part (p : Part)
  | nextPartError
  deriving DecidableEq

/-- Error result of io.CopyN: EOF when the source ended before the limit,
readError when the underlying read failed. -/
inductive CopyErr where
  | eof
  | readError
  deriving DecidableEq

/-- Translation of io.CopyN(&fileBuf, part, limit): copies at most limit
bytes.  If at least limit bytes are available it copies exactly limit of
them and returns no error; otherwise it copies everything available and
returns EOF, or the read error when the part stream aborts. -/
def copyN (p : Part) (limit : Nat) : Bytes × Nat × Option CopyErr :=
  if limit ≤ p.content.length then
    (p.content.take limit, limit, none)
  else
    (p.content, p.content.length,
      some (if p.readErr then CopyErr.readError else CopyErr.eof))

/-- Body written on the response: http.Error writes plain text;
validateAndRespond encodes a JSON object with a message and a field map. -/
inductive ResponseBody where
  | text (msg : String)
  | jsonMessageFields (message : String) (fields : List (String × String))
  deriving DecidableEq

/-- What was written to the http.ResponseWriter. -/
structure HttpResponse where
  status : Nat
  contentTypeHeader : Option String
  body : ResponseBody
  deriving DecidableEq

/-- http.Error(w, msg, code): plain-text body, text/plain content type. -/
def httpError (msg : String) (code : Nat) : HttpResponse :=
  { status := code
    contentTypeHeader := some "text/plain; charset=utf-8"
    body := ResponseBody.text msg }

/-- One field-level violation from the validator: the struct field name
and the violated rule tag. -/
structure FieldViolation where
  field : String
  tag : String
  deriving DecidableEq

/-- Outcome of cfg.Validator.Struct(dst): success, a structured list of
field violations (validator.ValidationErrors), or some other error. -/
inductive ValidationOutcome where
  | ok
  | fieldViolations (ves : List FieldViolation)
  | otherError
  deriving DecidableEq

/-- The error values returned by the parser functions. -/
inductive ParseError where
  | unsupportedContentType
  | invalidJSONBody
  | formParseFailed
  | multipartInitFailed
  | unsupportedFileType (contentType : String)
  | fileReadFailed
  | fileTooLarge (n : Nat)
  | validationFailed (ves : List FieldViolation)
  | validationFailedOther
  deriving DecidableEq

/-- Config from src/unnamed/part_001, with the collaborators as
functions.  decode models cfg.Decoder.Decode (new record value plus an
error flag the caller may ignore), validate models
cfg.Validator.Struct.  AllowedMIMETypes and MaxFileSize are modelled
from the spec: the tests (src/unnamed/part_000) configure
Config.AllowedMIMETypes and Config.MaxFileSize, while every version of
formparser.go under src hard-codes defaultAllowedTypes and 5 << 20; the
version with the configurable fields is missing from src. -/
structure Config (α : Type) where
  decode : α → Values → α × Bool
  validate : α → ValidationOutcome
  fieldErrorMessages : List (String × String)
  allowedMIMETypes : List String
  maxFileSize : Nat
  files : FilesMap

/-- The request: declared Content-Type header value ("" when missing),
and the three body views.  jsonBody models json.Decode into dst (none on
decode error); postForm models r.ParseForm + r.PostForm (none on parse
error); multipartStream models r.MultipartReader (none on init error)
followed by the lazy part sequence. -/
structure Request (α : Type) where
  contentType : String
  jsonBody : α → Option α
  postForm : Option Values
  multipartStream : Option (List PartEvent)

/-- Result of one parse call: the record value, the Config.Files state
after the call, the response written (none when untouched) and the
returned error (none on success) — or a runtime panic. -/
inductive ParseResult (α : Type) where
  | ret (dst : α) (files : FilesMap) (response : Option HttpResponse)
      (error : Option ParseError)
  | panicked
  deriving DecidableEq

variable {α : Type}

/-- The Files component of a returned result. -/
def resultFiles : ParseResult α → Option FilesMap
  | ParseResult.ret _ files _ _ => some files
  | ParseResult.panicked => none

/-- The hard-coded allow-list of the versions under src. -/
def defaultAllowedTypes : List String :=
  ["image/jpeg", "image/png", "application/pdf"]

/-- Translation of isAllowedContentType from src/unnamed/part_001: loop
over the allowed list, return true on the first exact string match,
false after the loop.  The list is a parameter (Config.AllowedMIMETypes,
modelled from the spec and the tests; src hard-codes
defaultAllowedTypes). -/
def isAllowedContentType (contentType : String) (allowed : List String) : Bool :=
  allowed.any (fun a => contentType == a)

/-- ASCII lower-casing of one character.  strings.ToLower is modelled as
ASCII case folding: the content-type constants and field names the code
compares are ASCII. -/
def asciiLower (c : Char) : Char :=
  if 65 ≤ c.toNat ∧ c.toNat ≤ 90 then Char.ofNat (c.toNat + 32) else c

/-- ASCII lower-casing of a string (model of strings.ToLower). -/
def toLowerStr (s : String) : String := String.mk (s.data.map asciiLower)

/-- One step of the validateAndRespond loop over the violations: look up
an override message by lower-cased field name, else synthesize
"<field> is <tag>", and assign it into the field-error map. -/
def fieldErrorStep (msgs : List (String × String))
    (acc : List (String × String)) (ve : FieldViolation) :
    List (String × String) :=
  let field := toLowerStr ve.field
  match strMapGet msgs field with
  | some msg => strMapInsert acc field msg
  | none => strMapInsert acc field (field ++ " is " ++ ve.tag)

/-- The fieldErrors map built by validateAndRespond from the structured
violations. -/
def buildFieldErrors (msgs : List (String × String))
    (ves : List FieldViolation) : List (String × String) :=
  ves.foldl (fieldErrorStep msgs) []

/-- Translation of validateAndRespond from src/unnamed/part_001: run the
validator; on structured violations write a 400 JSON response with the
message "Validation failed" and the field-error map and return the
error; on an unstructured failure write a 400 plain-text response; on
success leave the response untouched and return no error. -/
def validateAndRespond (cfg : Config α) (dst : α) (files : FilesMap) :
    ParseResult α :=
  match cfg.validate dst with
  | ValidationOutcome.ok => ParseResult.ret dst files none none
  | ValidationOutcome.fieldViolations ves =>
      ParseResult.ret dst files
        (some { status := 400
                contentTypeHeader := some "application/json"
                body := ResponseBody.jsonMessageFields "Validation failed"
                  (buildFieldErrors cfg.fieldErrorMessages ves) })
        (some (ParseError.validationFailed ves))
  | ValidationOutcome.otherError =>
      ParseResult.ret dst files (some (httpError "Validation failed" 400))
        (some ParseError.validationFailedOther)

/-- Aggregate state of the part loop in parseMultipart: finished with the
accumulated values and files, aborted with a written response and an
error, or panicked.  The panicked case models the NextPart error path of
src/unnamed/part_001 lines 94-98: a non-EOF NextPart error is never
checked, so the code goes on to call methods on a nil part and crashes
with a nil-pointer dereference. -/
inductive MultipartLoop where
  | finished (values : Values) (files : FilesMap)
  | failed (files : FilesMap) (response : HttpResponse) (error : ParseError)
  | panicked
  deriving DecidableEq

/-- Translation of the for loop of parseMultipart (src/unnamed/part_001
lines 93-143): scalar parts are read whole (read errors ignored) and
appended to the values multimap; file parts are checked against the MIME
policy (400 abort), streamed through io.CopyN with limit
maxFileSize + 1 (500 abort on a genuine read error, 413 abort when more
than maxFileSize bytes were read), then stored in the files map and
their hex digest appended to the values multimap. -/
def partsLoop (hashHex : Bytes → String) (allowed : List String)
    (maxFileSize : Nat) :
    List PartEvent → Values → FilesMap → MultipartLoop
  | [], values, files => MultipartLoop.finished values files
  | PartEvent.nextPartError :: _, _, _ => MultipartLoop.panicked
  | PartEvent.part p :: rest, values, files =>
    if p.fileName == "" then
      partsLoop hashHex allowed maxFileSize rest
        (valuesAdd values p.formName (String.mk p.content)) files
    else if !(isAllowedContentType p.contentType allowed) then
      MultipartLoop.failed files (httpError "Unsupported file type" 400)
        (ParseError.unsupportedFileType p.contentType)
    else
      let res := copyN p (maxFileSize + 1)
      if res.2.2 == some CopyErr.readError then
        MultipartLoop.failed files (httpError "Error reading file" 500)
          ParseError.fileReadFailed
      else if maxFileSize < res.2.1 then
        MultipartLoop.failed files (httpError "File too large" 413)
          (ParseError.fileTooLarge res.2.1)
      else
        let hash := hashHex res.1
        partsLoop hashHex allowed maxFileSize rest
          (valuesAdd values p.formName hash)
          (filesInsert files p.formName
            { filename := p.fileName
              contentType := p.contentType
              content := res.1
              hash := hash })

/-- Translation of parseMultipart from src/unnamed/part_001: on a
MultipartReader error write 400 and return; otherwise re-initialize the
files map to empty, run the part loop, and on normal completion decode
the accumulated values into dst (the decoder error is discarded) and
validate.  hashHex is the crypto/sha256 hex digest, modelled as a
parameter. -/
def parseMultipart (hashHex : Bytes → String) (cfg : Config α)
    (r : Request α) (dst : α) : ParseResult α :=
  match r.multipartStream with
  | none =>
      ParseResult.ret dst cfg.files
        (some (httpError "Can\x27t parse multipart" 400))
        (some ParseError.multipartInitFailed)
  | some events =>
      match partsLoop hashHex cfg.allowedMIMETypes cfg.maxFileSize events [] [] with
      | MultipartLoop.panicked => ParseResult.panicked
      | MultipartLoop.failed files resp e =>
          ParseResult.ret dst files (some resp) (some e)
      | MultipartLoop.finished values files =>
          validateAndRespond cfg (cfg.decode dst values).1 files

/-- Translation of parseJSON from src/unnamed/part_001: decode the JSON
body into dst (400 on decode error) and validate.  Config.Files is not
touched on this path. -/
def parseJSON (cfg : Config α) (r : Request α) (dst : α) : ParseResult α :=
  match r.jsonBody dst with
  | none =>
      ParseResult.ret dst cfg.files (some (httpError "Invalid JSON body" 400))
        (some ParseError.invalidJSONBody)
  | some dst2 => validateAndRespond cfg dst2 cfg.files

/-- Translation of parseURLEncoded from src/unnamed/part_001: parse the
form (400 on error), decode PostForm into dst discarding the decoder
error, and validate.  Config.Files is not touched on this path. -/
def parseURLEncoded (cfg : Config α) (r : Request α) (dst : α) :
    ParseResult α :=
  match r.postForm with
  | none =>
      ParseResult.ret dst cfg.files
        (some (httpError "Can\x27t parse form" 400))
        (some ParseError.formParseFailed)
  | some pf => validateAndRespond cfg (cfg.decode dst pf).1 cfg.files

/-- Go strings.HasPrefix s pre. -/
def strStartsWith (s pre : String) : Bool := pre.data.isPrefixOf s.data

/-- The strategy selected by the content-type switch. -/
inductive Strategy where
  | multipartData
  | urlencoded
  | json
  | unsupported
  deriving DecidableEq

/-- The switch of ParseFormBasedOnContentType (src/unnamed/part_001
lines 46-57): case-sensitive prefix match, first match wins. -/
def routeContentType (ct : String) : Strategy :=
  if strStartsWith ct "multipart/form-data" then Strategy.multipartData
  else if strStartsWith ct "application/x-www-form-urlencoded" then
    Strategy.urlencoded
  else if strStartsWith ct "application/json" then Strategy.json
  else Strategy.unsupported

/-- Translation of ParseFormBasedOnContentType from
src/unnamed/part_001: dispatch on the Content-Type header; unsupported
values write 415 and return an error without reading the body. -/
def ParseFormBasedOnContentType (hashHex : Bytes → String) (cfg : Config α)
    (r : Request α) (dst : α) : ParseResult α :=
  match routeContentType r.contentType with
  | Strategy.multipartData => parseMultipart hashHex cfg r dst
  | Strategy.urlencoded => parseURLEncoded cfg r dst
  | Strategy.json => parseJSON cfg r dst
  | Strategy.unsupported =>
      ParseResult.ret dst cfg.files
        (some (httpError "Unsupported Content-Type" 415))
        (some ParseError.unsupportedContentType)

/-- Modelled from the spec (refinement comparison for claim C3): the
spec routes by CASE-INSENSITIVE prefix match on the content-type value,
same precedence as the code.  Case-insensitivity is modelled as ASCII
case folding before the prefix test. -/
def routeContentTypeSpec (ct : String) : Strategy :=
  let folded := toLowerStr ct
  if strStartsWith folded "multipart/form-data" then Strategy.multipartData
  else if strStartsWith folded "application/x-www-form-urlencoded" then
    Strategy.urlencoded
  else if strStartsWith folded "application/json" then Strategy.json
  else Strategy.unsupported

def exHash : Bytes → String := fun bs => String.mk bs ++ "!"

def exConfig : Config Unit :=
  { decode := fun d _ => (d, false)
    validate := fun _ => ValidationOutcome.ok
    fieldErrorMessages := []
    allowedMIMETypes := ["image/png"]
    maxFileSize := 4
    files := [] }

def c1PartExact : Part :=
  { formName := "f", fileName := "f.png", contentType := "image/png"
    content := ['a', 'b', 'c', 'd'], readErr := false }

def c1PartOver : Part :=
  { formName := "f", fileName := "f.png", contentType := "image/png"
    content := ['a', 'b', 'c', 'd', 'e'], readErr := false }

def c1ReqExact : Request Unit :=
  { contentType := "multipart/form-data; boundary=q", jsonBody := fun _ => none
    postForm := none, multipartStream := some [PartEvent.part c1PartExact] }

def c1ReqOver : Request Unit :=
  { contentType := "multipart/form-data; boundary=q", jsonBody := fun _ => none
    postForm := none, multipartStream := some [PartEvent.part c1PartOver] }

def c2Config : Config Unit :=
  { decode := fun d _ => (d, false)
    validate := fun _ => ValidationOutcome.ok
    fieldErrorMessages := []
    allowedMIMETypes := []
    maxFileSize := 4
    files := [] }

def c2Req : Request Unit :=
  { contentType := "multipart/form-data; boundary=q", jsonBody := fun _ => none
    postForm := none, multipartStream := some [PartEvent.part c1PartExact] }

def c9Part1 : Part :=
  { formName := "tag", fileName := "", contentType := "", content := ['u']
    readErr := false }

def c9Part2 : Part :=
  { formName := "tag", fileName := "", contentType := "", content := ['v']
    readErr := false }

def c10Part1 : Part :=
  { formName := "pic", fileName := "one.png", contentType := "image/png"
    content := ['a'], readErr := false }

def c10Part2 : Part :=
  { formName := "pic", fileName := "two.png", contentType := "image/png"
    content := ['b'], readErr := false }

def c3Req : Request Unit :=
  { contentType := "Multipart/form-data; boundary=b", jsonBody := fun _ => none,
    postForm := none, multipartStream := some [PartEvent.part c1PartExact] }

def urlReq : Request Unit :=
  { contentType := "application/x-www-form-urlencoded",
    jsonBody := fun _ => none, postForm := some [],
    multipartStream := none }

def badPart : Part :=
  { formName := "b", fileName := "b.txt", contentType := "text/plain",
    content := ['y'], readErr := false }

def c4Req : Request Unit :=
  { contentType := "multipart/form-data; boundary=q", jsonBody := fun _ => none,
    postForm := none,
    multipartStream := some [PartEvent.part c1PartExact, PartEvent.part badPart] }

def c5ReqEnum : Request Unit :=
  { contentType := "multipart/form-data; boundary=q", jsonBody := fun _ => none,
    postForm := none, multipartStream := some [PartEvent.nextPartError] }

def c5StreamErrPart : Part :=
  { formName := "f", fileName := "f.png", contentType := "image/png",
    content := ['z'], readErr := true }

def c5ReqStream : Request Unit :=
  { contentType := "multipart/form-data; boundary=q", jsonBody := fun _ => none,
    postForm := none, multipartStream := some [PartEvent.part c5StreamErrPart] }

def staleFile : UploadedFile :=
  { filename := "old.png", contentType := "image/png", content := ['o'],
    hash := "deadbeef" }

def staleConfig : Config Unit :=
  { decode := fun d _ => (d, false)
    validate := fun _ => ValidationOutcome.ok
    fieldErrorMessages := []
    allowedMIMETypes := ["image/png"]
    maxFileSize := 4
    files := [("avatar", staleFile)] }

def jsonReq : Request Unit :=
  { contentType := "application/json", jsonBody := fun d => some d,
    postForm := some [], multipartStream := some [] }

/-- A multipart/form-data request whose MultipartReader fails to
initialize (for example a Content-Type with no boundary parameter): it
routes to parseMultipart by prefix, then r.MultipartReader() errors. -/
def mpInitFailReq : Request Unit :=
  { contentType := "multipart/form-data", jsonBody := fun _ => none,
    postForm := none, multipartStream := none }

def c8Ves : List FieldViolation :=
  [{ field := "Name", tag := "required" }, { field := "Email", tag := "email" }]

def c8Config : Config Unit :=
  { decode := fun d _ => (d, false)
    validate := fun _ => ValidationOutcome.fieldViolations c8Ves
    fieldErrorMessages := [("name", "Name is required")]
    allowedMIMETypes := ["image/png"]
    maxFileSize := 4
    files := [] }

theorem strMapGet_insert_self (m : List (String × String)) (k v : String) :
    strMapGet (strMapInsert m k v) k = some v := by
  induction m with
  | nil => simp [strMapInsert, strMapGet]
  | cons kv rest ih =>
    by_cases h : kv.1 = k
    · simpa [strMapInsert, List.filter_cons, h] using ih
    · simpa [strMapInsert, strMapGet, List.filter_cons, h] using ih

theorem strMapGet_insert_ne (m : List (String × String)) (k v k2 : String)
    (h : k2 ≠ k) : strMapGet (strMapInsert m k v) k2 = strMapGet m k2 := by
  have hk : k ≠ k2 := Ne.symm h
  induction m with
  | nil => simp [strMapInsert, strMapGet, hk]
  | cons kv rest ih =>
    by_cases h1 : kv.1 = k
    · simpa [strMapInsert, strMapGet, List.filter_cons, h1, hk] using ih
    · by_cases h2 : kv.1 = k2
      · simp [strMapInsert, strMapGet, List.filter_cons, h1, h2, h]
      · simpa [strMapInsert, strMapGet, List.filter_cons, h1, h2] using ih

theorem strMapGet_fieldErrorStep_self (msgs acc : List (String × String))
    (ve : FieldViolation) :
    strMapGet (fieldErrorStep msgs acc ve) (toLowerStr ve.field) =
      some ((strMapGet msgs (toLowerStr ve.field)).getD
        ((toLowerStr ve.field) ++ " is " ++ ve.tag)) := by
  cases h : strMapGet msgs (toLowerStr ve.field) <;>
    simp [fieldErrorStep, h, strMapGet_insert_self]

theorem strMapGet_fieldErrorStep_ne (msgs acc : List (String × String))
    (ve : FieldViolation) (f : String) (h : f ≠ (toLowerStr ve.field)) :
    strMapGet (fieldErrorStep msgs acc ve) f = strMapGet acc f := by
  cases h2 : strMapGet msgs (toLowerStr ve.field) <;>
    simp [fieldErrorStep, h2, strMapGet_insert_ne _ _ _ _ h]

theorem strMapGet_foldl_of_notMem (msgs : List (String × String))
    (ves : List FieldViolation) (acc : List (String × String)) (f : String)
    (h : f ∉ ves.map (fun ve => (toLowerStr ve.field))) :
    strMapGet (ves.foldl (fieldErrorStep msgs) acc) f = strMapGet acc f := by
  induction ves generalizing acc with
  | nil => rfl
  | cons v0 rest ih =>
    simp only [List.map_cons, List.mem_cons, not_or] at h
    rw [List.foldl_cons, ih _ h.2, strMapGet_fieldErrorStep_ne _ _ _ _ h.1]

theorem strMapGet_foldl_of_mem (msgs : List (String × String))
    (ves : List FieldViolation) (acc : List (String × String))
    (hnodup : (ves.map (fun ve => (toLowerStr ve.field))).Nodup)
    (ve : FieldViolation) (hmem : ve ∈ ves) :
    strMapGet (ves.foldl (fieldErrorStep msgs) acc) (toLowerStr ve.field) =
      some ((strMapGet msgs (toLowerStr ve.field)).getD
        ((toLowerStr ve.field) ++ " is " ++ ve.tag)) := by
  induction ves generalizing acc with
  | nil => cases hmem
  | cons v0 rest ih =>
    rw [List.map_cons, List.nodup_cons] at hnodup
    rw [List.foldl_cons]
    rcases List.mem_cons.mp hmem with h | h
    · subst h
      rw [strMapGet_foldl_of_notMem _ _ _ _ hnodup.1,
        strMapGet_fieldErrorStep_self]
    · exact ih _ hnodup.2 h

theorem valuesGet_add_self (v : Values) (k s : String) :
    valuesGet (valuesAdd v k s) k = valuesGet v k ++ [s] := by
  simp [valuesGet, valuesAdd]

theorem valuesGet_add_ne (v : Values) (k s k2 : String) (h : k ≠ k2) :
    valuesGet (valuesAdd v k s) k2 = valuesGet v k2 := by
  simp [valuesGet, valuesAdd, h]

theorem resultFiles_validateAndRespond (cfg : Config α) (dst : α)
    (files : FilesMap) :
    resultFiles (validateAndRespond cfg dst files) = some files := by
  cases h : cfg.validate dst <;> simp [validateAndRespond, h, resultFiles]

theorem partsLoop_scalar (hashHex : Bytes → String) (allowed : List String)
    (maxFileSize : Nat) (p : Part) (rest : List PartEvent) (values : Values)
    (files : FilesMap) (h : p.fileName = "") :
    partsLoop hashHex allowed maxFileSize (PartEvent.part p :: rest) values files =
      partsLoop hashHex allowed maxFileSize rest
        (valuesAdd values p.formName (String.mk p.content)) files := by
  simp [partsLoop, h]

theorem partsLoop_file_disallowed (hashHex : Bytes → String)
    (allowed : List String) (maxFileSize : Nat) (p : Part)
    (rest : List PartEvent) (values : Values) (files : FilesMap)
    (hf : p.fileName ≠ "")
    (ha : isAllowedContentType p.contentType allowed = false) :
    partsLoop hashHex allowed maxFileSize (PartEvent.part p :: rest) values files =
      MultipartLoop.failed files (httpError "Unsupported file type" 400)
        (ParseError.unsupportedFileType p.contentType) := by
  simp [partsLoop, hf, ha]

theorem partsLoop_file_ok (hashHex : Bytes → String) (allowed : List String)
    (maxFileSize : Nat) (p : Part) (rest : List PartEvent) (values : Values)
    (files : FilesMap) (hf : p.fileName ≠ "")
    (ha : isAllowedContentType p.contentType allowed = true)
    (he : p.readErr = false) (hlen : p.content.length ≤ maxFileSize) :
    partsLoop hashHex allowed maxFileSize (PartEvent.part p :: rest) values files =
      partsLoop hashHex allowed maxFileSize rest
        (valuesAdd values p.formName (hashHex p.content))
        (filesInsert files p.formName
          { filename := p.fileName
            contentType := p.contentType
            content := p.content
            hash := hashHex p.content }) := by
  have h1 : ¬ (maxFileSize + 1 ≤ p.content.length) := by omega
  have h2 : ¬ (maxFileSize < p.content.length) := by omega
  simp [partsLoop, hf, ha, copyN, h1, h2, he]

theorem partsLoop_file_too_large (hashHex : Bytes → String)
    (allowed : List String) (maxFileSize : Nat) (p : Part)
    (rest : List PartEvent) (values : Values) (files : FilesMap)
    (hf : p.fileName ≠ "")
    (ha : isAllowedContentType p.contentType allowed = true)
    (hlen : maxFileSize + 1 ≤ p.content.length) :
    partsLoop hashHex allowed maxFileSize (PartEvent.part p :: rest) values files =
      MultipartLoop.failed files (httpError "File too large" 413)
        (ParseError.fileTooLarge (maxFileSize + 1)) := by
  simp [partsLoop, hf, ha, copyN, hlen]

theorem partsLoop_file_read_error (hashHex : Bytes → String)
    (allowed : List String) (maxFileSize : Nat) (p : Part)
    (rest : List PartEvent) (values : Values) (files : FilesMap)
    (hf : p.fileName ≠ "")
    (ha : isAllowedContentType p.contentType allowed = true)
    (he : p.readErr = true) (hlen : p.content.length ≤ maxFileSize) :
    partsLoop hashHex allowed maxFileSize (PartEvent.part p :: rest) values files =
      MultipartLoop.failed files (httpError "Error reading file" 500)
        ParseError.fileReadFailed := by
  have h1 : ¬ (maxFileSize + 1 ≤ p.content.length) := by omega
  simp [partsLoop, hf, ha, copyN, h1, he]

/-- C1: for every multipart request and every file part whose declared
type passes the MIME policy, the extractor reads at most MaxFileSize + 1
bytes of the part into its buffer; a part of exactly MaxFileSize bytes
is accepted (stored in the files map and its digest appended to the
multimap before decoding and validation), and a part from which
MaxFileSize + 1 bytes were read aborts the whole parse with the
413 "File too large" response and the fileTooLarge error. -/
theorem c1_file_size_boundary (hashHex : Bytes → String) (cfg : Config α)
    (r : Request α) (dst : α) (p : Part) (rest : List PartEvent)
    (hf : p.fileName ≠ "")
    (ha : isAllowedContentType p.contentType cfg.allowedMIMETypes = true) :
    (copyN p (cfg.maxFileSize + 1)).1.length ≤ cfg.maxFileSize + 1
    ∧ (r.multipartStream = some [PartEvent.part p] → p.readErr = false →
        p.content.length = cfg.maxFileSize →
        parseMultipart hashHex cfg r dst =
          validateAndRespond cfg
            (cfg.decode dst (valuesAdd [] p.formName (hashHex p.content))).1
            [(p.formName,
              { filename := p.fileName
                contentType := p.contentType
                content := p.content
                hash := hashHex p.content })])
    ∧ (r.multipartStream = some (PartEvent.part p :: rest) →
        cfg.maxFileSize + 1 ≤ p.content.length →
        parseMultipart hashHex cfg r dst =
          ParseResult.ret dst [] (some (httpError "File too large" 413))
            (some (ParseError.fileTooLarge (cfg.maxFileSize + 1)))) := by
  refine ⟨?_, ?_, ?_⟩
  · by_cases h : cfg.maxFileSize + 1 ≤ p.content.length
    · simp only [copyN, if_pos h, List.length_take]
      omega
    · simp only [copyN, if_neg h]
      omega
  · intro hs he hlen
    simp only [parseMultipart, hs]
    rw [partsLoop_file_ok _ _ _ _ _ _ _ hf ha he (by omega)]
    simp [partsLoop, filesInsert]
  · intro hs hlen
    simp only [parseMultipart, hs]
    rw [partsLoop_file_too_large _ _ _ _ _ _ _ hf ha hlen]

/-- Witness for C1 at maxFileSize = 4: a 4-byte png part is accepted, a
5-byte part fails with 413. -/
theorem c1_witness :
    parseMultipart exHash exConfig c1ReqExact () =
      validateAndRespond exConfig ()
        [("f", { filename := "f.png", contentType := "image/png"
                 content := ['a', 'b', 'c', 'd']
                 hash := exHash ['a', 'b', 'c', 'd'] })]
    ∧ parseMultipart exHash exConfig c1ReqOver () =
        ParseResult.ret () [] (some (httpError "File too large" 413))
          (some (ParseError.fileTooLarge 5)) :=
  ⟨(c1_file_size_boundary exHash exConfig c1ReqExact () c1PartExact []
      (by decide) (by decide)).2.1 rfl rfl rfl,
   (c1_file_size_boundary exHash exConfig c1ReqOver () c1PartOver []
      (by decide) (by decide)).2.2 rfl (by decide)⟩

/-- C2: the MIME policy accepts a candidate type iff it is an exact,
case-sensitive string match of some entry of the configured allow-list;
with an empty allow-list every candidate is rejected, and a multipart
parse meeting any file part fails with the 400 "Unsupported file type"
response regardless of the declared type (fail-closed). -/
theorem c2_mime_allowlist (hashHex : Bytes → String) (cfg : Config α)
    (r : Request α) (dst : α) (ct : String) (allowed : List String)
    (p : Part) (rest : List PartEvent)
    (hempty : cfg.allowedMIMETypes = [])
    (hf : p.fileName ≠ "")
    (hs : r.multipartStream = some (PartEvent.part p :: rest)) :
    (isAllowedContentType ct allowed = true ↔ ct ∈ allowed)
    ∧ isAllowedContentType ct [] = false
    ∧ parseMultipart hashHex cfg r dst =
        ParseResult.ret dst [] (some (httpError "Unsupported file type" 400))
          (some (ParseError.unsupportedFileType p.contentType)) := by
  refine ⟨?_, rfl, ?_⟩
  · simp only [isAllowedContentType, List.any_eq_true, beq_iff_eq]
    exact ⟨fun h => by rcases h with ⟨a, ha, he⟩; exact he ▸ ha,
      fun h => ⟨ct, h, rfl⟩⟩
  · have ha : isAllowedContentType p.contentType cfg.allowedMIMETypes = false := by
      rw [hempty]; rfl
    simp only [parseMultipart, hs]
    rw [partsLoop_file_disallowed _ _ _ _ _ _ _ hf ha]

/-- Witness for C2: "image/png" against the list ["image/jpeg"], and a
png upload against an empty allow-list, which is rejected. -/
theorem c2_witness :
    (isAllowedContentType "image/png" ["image/jpeg"] = true ↔
      "image/png" ∈ ["image/jpeg"])
    ∧ isAllowedContentType "image/png" [] = false
    ∧ parseMultipart exHash c2Config c2Req () =
        ParseResult.ret () [] (some (httpError "Unsupported file type" 400))
          (some (ParseError.unsupportedFileType "image/png")) :=
  c2_mime_allowlist exHash c2Config c2Req () "image/png" ["image/jpeg"]
    c1PartExact [] rfl (by decide) rfl

/-- C9: two scalar (filename-less) parts sharing a field name are both
appended to the result multimap under that name: the loop finishes with
both values present, in order, and the lookup of that field returns
both — no silent overwrite. -/
theorem c9_scalar_fields_preserved (hashHex : Bytes → String)
    (allowed : List String) (maxFileSize : Nat) (p1 p2 : Part) (n : String)
    (vals0 : Values) (files0 : FilesMap)
    (h1 : p1.fileName = "") (h2 : p2.fileName = "")
    (hn1 : p1.formName = n) (hn2 : p2.formName = n) :
    partsLoop hashHex allowed maxFileSize
        [PartEvent.part p1, PartEvent.part p2] vals0 files0 =
      MultipartLoop.finished
        (valuesAdd (valuesAdd vals0 n (String.mk p1.content)) n
          (String.mk p2.content)) files0
    ∧ valuesGet (valuesAdd (valuesAdd vals0 n (String.mk p1.content)) n
          (String.mk p2.content)) n =
        valuesGet vals0 n ++ [String.mk p1.content, String.mk p2.content] := by
  constructor
  · rw [partsLoop_scalar _ _ _ _ _ _ _ h1, partsLoop_scalar _ _ _ _ _ _ _ h2,
      hn1, hn2]
    rfl
  · rw [valuesGet_add_self, valuesGet_add_self, List.append_assoc]
    rfl

/-- Witness for C9 with two scalar parts named "tag". -/
theorem c9_witness :
    partsLoop exHash ["image/png"] 4
        [PartEvent.part c9Part1, PartEvent.part c9Part2] [] [] =
      MultipartLoop.finished
        (valuesAdd (valuesAdd [] "tag" (String.mk ['u'])) "tag"
          (String.mk ['v'])) []
    ∧ valuesGet (valuesAdd (valuesAdd [] "tag" (String.mk ['u'])) "tag"
          (String.mk ['v'])) "tag" =
        valuesGet [] "tag" ++ [String.mk ['u'], String.mk ['v']] :=
  c9_scalar_fields_preserved exHash ["image/png"] 4 c9Part1 c9Part2 "tag" [] []
    rfl rfl rfl rfl

/-- C10: two accepted file parts sharing a field name leave only the
last UploadedFile in the files map (the second insert overwrites the
first binding), while both hex digests are appended to the scalar
multimap under that field name. -/
theorem c10_duplicate_file_fields (hashHex : Bytes → String)
    (allowed : List String) (maxFileSize : Nat) (p1 p2 : Part) (n : String)
    (vals0 : Values)
    (hf1 : p1.fileName ≠ "") (hf2 : p2.fileName ≠ "")
    (ha1 : isAllowedContentType p1.contentType allowed = true)
    (ha2 : isAllowedContentType p2.contentType allowed = true)
    (he1 : p1.readErr = false) (he2 : p2.readErr = false)
    (hl1 : p1.content.length ≤ maxFileSize)
    (hl2 : p2.content.length ≤ maxFileSize)
    (hn1 : p1.formName = n) (hn2 : p2.formName = n) :
    partsLoop hashHex allowed maxFileSize
        [PartEvent.part p1, PartEvent.part p2] vals0 [] =
      MultipartLoop.finished
        (valuesAdd (valuesAdd vals0 n (hashHex p1.content)) n
          (hashHex p2.content))
        [(n, { filename := p2.fileName, contentType := p2.contentType,
               content := p2.content, hash := hashHex p2.content })]
    ∧ filesGet [(n, { filename := p2.fileName, contentType := p2.contentType,
                      content := p2.content, hash := hashHex p2.content })] n =
        some { filename := p2.fileName, contentType := p2.contentType,
               content := p2.content, hash := hashHex p2.content }
    ∧ valuesGet (valuesAdd (valuesAdd vals0 n (hashHex p1.content)) n
          (hashHex p2.content)) n =
        valuesGet vals0 n ++ [hashHex p1.content, hashHex p2.content] := by
  refine ⟨?_, ?_, ?_⟩
  · rw [partsLoop_file_ok _ _ _ _ _ _ _ hf1 ha1 he1 hl1,
      partsLoop_file_ok _ _ _ _ _ _ _ hf2 ha2 he2 hl2, hn1, hn2]
    simp [partsLoop, filesInsert, List.filter_cons]
  · simp [filesGet, List.lookup]
  · rw [valuesGet_add_self, valuesGet_add_self, List.append_assoc]
    rfl

/-- Witness for C10 with two accepted png parts named "pic". -/
theorem c10_witness :
    partsLoop exHash ["image/png"] 4
        [PartEvent.part c10Part1, PartEvent.part c10Part2] [] [] =
      MultipartLoop.finished
        (valuesAdd (valuesAdd [] "pic" (exHash ['a'])) "pic" (exHash ['b']))
        [("pic", { filename := "two.png", contentType := "image/png",
                   content := ['b'], hash := exHash ['b'] })]
    ∧ filesGet [("pic", { filename := "two.png", contentType := "image/png",
                          content := ['b'], hash := exHash ['b'] })] "pic" =
        some { filename := "two.png", contentType := "image/png",
               content := ['b'], hash := exHash ['b'] }
    ∧ valuesGet (valuesAdd (valuesAdd [] "pic" (exHash ['a'])) "pic"
          (exHash ['b'])) "pic" =
        valuesGet [] "pic" ++ [exHash ['a'], exHash ['b']] :=
  c10_duplicate_file_fields exHash ["image/png"] 4 c10Part1 c10Part2 "pic" []
    (by decide) (by decide) (by decide) (by decide) rfl rfl (by decide)
    (by decide) rfl rfl

/-- C3 counterexample: the claim says the router matches the
content-type prefix CASE-INSENSITIVELY, so "Multipart/form-data" ought
to select multipart extraction (routeContentTypeSpec does); the code
uses case-sensitive strings.HasPrefix and falls through to the 415
unsupported-media-type failure. -/
theorem c3_counterexample :
    routeContentTypeSpec "Multipart/form-data; boundary=b" =
      Strategy.multipartData
    ∧ routeContentType "Multipart/form-data; boundary=b" = Strategy.unsupported
    ∧ ParseFormBasedOnContentType exHash exConfig c3Req () =
        ParseResult.ret () [] (some (httpError "Unsupported Content-Type" 415))
          (some ParseError.unsupportedContentType) := by
  decide

/-- C3 (amended): the router selects exactly one strategy by
CASE-SENSITIVE prefix match on the declared Content-Type value, with
precedence multipart/form-data, then
application/x-www-form-urlencoded, then application/json; any other
value (including a missing header, modelled as "") fails with the 415
response and an unsupported-content-type error, and the result is then
independent of the request body (no body is read). -/
theorem c3_router_dispatch (hashHex : Bytes → String) (cfg : Config α)
    (r r2 : Request α) (dst : α) (ct : String) :
    (strStartsWith ct "multipart/form-data" = true →
      routeContentType ct = Strategy.multipartData)
    ∧ (strStartsWith ct "multipart/form-data" = false →
        strStartsWith ct "application/x-www-form-urlencoded" = true →
        routeContentType ct = Strategy.urlencoded)
    ∧ (strStartsWith ct "multipart/form-data" = false →
        strStartsWith ct "application/x-www-form-urlencoded" = false →
        strStartsWith ct "application/json" = true →
        routeContentType ct = Strategy.json)
    ∧ (strStartsWith ct "multipart/form-data" = false →
        strStartsWith ct "application/x-www-form-urlencoded" = false →
        strStartsWith ct "application/json" = false →
        routeContentType ct = Strategy.unsupported)
    ∧ (routeContentType r.contentType = Strategy.multipartData →
        ParseFormBasedOnContentType hashHex cfg r dst =
          parseMultipart hashHex cfg r dst)
    ∧ (routeContentType r.contentType = Strategy.urlencoded →
        ParseFormBasedOnContentType hashHex cfg r dst =
          parseURLEncoded cfg r dst)
    ∧ (routeContentType r.contentType = Strategy.json →
        ParseFormBasedOnContentType hashHex cfg r dst = parseJSON cfg r dst)
    ∧ (routeContentType r.contentType = Strategy.unsupported →
        ParseFormBasedOnContentType hashHex cfg r dst =
          ParseResult.ret dst cfg.files
            (some (httpError "Unsupported Content-Type" 415))
            (some ParseError.unsupportedContentType))
    ∧ (routeContentType r.contentType = Strategy.unsupported →
        r2.contentType = r.contentType →
        ParseFormBasedOnContentType hashHex cfg r2 dst =
          ParseFormBasedOnContentType hashHex cfg r dst) := by
  refine ⟨fun h1 => ?_, fun h1 h2 => ?_, fun h1 h2 h3 => ?_,
    fun h1 h2 h3 => ?_, fun h => ?_, fun h => ?_, fun h => ?_, fun h => ?_,
    fun h he => ?_⟩
  · simp [routeContentType, h1]
  · simp [routeContentType, h1, h2]
  · simp [routeContentType, h1, h2, h3]
  · simp [routeContentType, h1, h2, h3]
  · simp [ParseFormBasedOnContentType, h]
  · simp [ParseFormBasedOnContentType, h]
  · simp [ParseFormBasedOnContentType, h]
  · simp [ParseFormBasedOnContentType, h]
  · simp only [ParseFormBasedOnContentType, he, h]

/-- Witness for C3 at the urlencoded content type. -/
theorem c3_witness :
    routeContentType "application/x-www-form-urlencoded" = Strategy.urlencoded
    ∧ ParseFormBasedOnContentType exHash exConfig urlReq () =
        parseURLEncoded exConfig urlReq () :=
  ⟨(c3_router_dispatch exHash exConfig urlReq urlReq ()
      "application/x-www-form-urlencoded").2.1 (by decide) (by decide),
   (c3_router_dispatch exHash exConfig urlReq urlReq ()
      urlReq.contentType).2.2.2.2.2.1 (by decide)⟩

/-- C4 counterexample: a multipart body with an accepted png file part
followed by a disallowed text/plain file part fails with the 400
response, but the files map still holds the entry for the earlier
accepted file, contradicting "the files map is left with no entry". -/
theorem c4_counterexample :
    parseMultipart exHash exConfig c4Req () =
      ParseResult.ret ()
        [("f", { filename := "f.png", contentType := "image/png",
                 content := ['a', 'b', 'c', 'd'], hash := exHash ['a', 'b', 'c', 'd'] })]
        (some (httpError "Unsupported file type" 400))
        (some (ParseError.unsupportedFileType "text/plain"))
    ∧ resultFiles (parseMultipart exHash exConfig c4Req ()) ≠ some [] := by
  decide

/-- C4 (amended): a file part whose declared type is not in the
allow-list aborts the whole parse with the 400 "Unsupported file type"
response carrying the offending type; the offending part gets no entry
in the files map, the accumulated multimap is discarded without being
decoded into the record (dst is returned unchanged), but files accepted
earlier in the same parse remain in the files map, which is not cleared
on failure. -/
theorem c4_disallowed_type_aborts (hashHex : Bytes → String) (cfg : Config α)
    (r : Request α) (dst : α) (p : Part) (rest : List PartEvent)
    (values : Values) (files : FilesMap)
    (hf : p.fileName ≠ "")
    (ha : isAllowedContentType p.contentType cfg.allowedMIMETypes = false) :
    partsLoop hashHex cfg.allowedMIMETypes cfg.maxFileSize
        (PartEvent.part p :: rest) values files =
      MultipartLoop.failed files (httpError "Unsupported file type" 400)
        (ParseError.unsupportedFileType p.contentType)
    ∧ (r.multipartStream = some (PartEvent.part p :: rest) →
        parseMultipart hashHex cfg r dst =
          ParseResult.ret dst []
            (some (httpError "Unsupported file type" 400))
            (some (ParseError.unsupportedFileType p.contentType))) := by
  refine ⟨partsLoop_file_disallowed _ _ _ _ _ _ _ hf ha, fun hs => ?_⟩
  simp only [parseMultipart, hs]
  rw [partsLoop_file_disallowed _ _ _ _ _ _ _ hf ha]

/-- Witness for C4: the failing loop state keeps the previously
accepted file and the scalar value accumulated so far. -/
theorem c4_witness :
    partsLoop exHash exConfig.allowedMIMETypes exConfig.maxFileSize
        [PartEvent.part badPart] [("name", "Alice")]
        [("f", { filename := "f.png", contentType := "image/png",
                 content := ['a', 'b', 'c', 'd'], hash := exHash ['a', 'b', 'c', 'd'] })] =
      MultipartLoop.failed
        [("f", { filename := "f.png", contentType := "image/png",
                 content := ['a', 'b', 'c', 'd'], hash := exHash ['a', 'b', 'c', 'd'] })]
        (httpError "Unsupported file type" 400)
        (ParseError.unsupportedFileType "text/plain")
    ∧ (c4Req.multipartStream = some [PartEvent.part badPart] →
        parseMultipart exHash exConfig c4Req () =
          ParseResult.ret () []
            (some (httpError "Unsupported file type" 400))
            (some (ParseError.unsupportedFileType "text/plain"))) :=
  c4_disallowed_type_aborts exHash exConfig c4Req () badPart [] [("name", "Alice")]
    [("f", { filename := "f.png", contentType := "image/png",
             content := ['a', 'b', 'c', 'd'], hash := exHash ['a', 'b', 'c', 'd'] })]
    (by decide) (by decide)

/-- C5: the claim says any non-EOF read error, during part enumeration
or while streaming a part, fails the parse with an internal-error
signal.  The streaming half holds (second conjunct: a mid-part read
error yields the 500 response and a returned error), but the
enumeration half does not: parseMultipart checks the NextPart error
against io.EOF only (src/unnamed/part_001 lines 94-98), so on any other
enumeration error it calls methods on a nil part and panics instead of
writing the 500 response — the first conjunct evaluates the code at
that failing input. -/
theorem c5_enumeration_error_crashes :
    parseMultipart exHash exConfig c5ReqEnum () = ParseResult.panicked
    ∧ parseMultipart exHash exConfig c5ReqStream () =
        ParseResult.ret () [] (some (httpError "Error reading file" 500))
          (some ParseError.fileReadFailed) := by
  decide

/-- C6 counterexample: a JSON parse on a config whose files map holds
an entry from a prior multipart call leaves that stale entry in place,
contradicting "after every non-multipart parse the mapping is
empty/absent"; and a multipart parse whose reader fails to initialize
returns before the re-initialization of the map, also leaving the stale
entry, contradicting "at the start of every multipart parse it is
re-initialized to empty". -/
theorem c6_counterexample :
    resultFiles (ParseFormBasedOnContentType exHash staleConfig jsonReq ()) =
      some [("avatar", staleFile)]
    ∧ resultFiles (ParseFormBasedOnContentType exHash staleConfig jsonReq ()) ≠
        some []
    ∧ resultFiles (ParseFormBasedOnContentType exHash staleConfig
          mpInitFailReq ()) =
        some [("avatar", staleFile)]
    ∧ resultFiles (ParseFormBasedOnContentType exHash staleConfig
          mpInitFailReq ()) ≠
        some [] := by
  decide

/-- C6 (amended): a multipart parse whose reader initializes
successfully re-initializes the files map at its start, so its result
is independent of the files state the config held before the call; a
multipart parse whose reader fails to initialize returns the 400
response with the mapping untouched (still the stale state); the JSON
and URL-form parses never touch the mapping either: after them it is
exactly the state left by the previous call on the same config. -/
theorem c6_files_lifecycle (hashHex : Bytes → String) (cfg : Config α)
    (F F2 : FilesMap) (r : Request α) (dst : α) (evs : List PartEvent) :
    (r.multipartStream = none →
      parseMultipart hashHex cfg r dst =
        ParseResult.ret dst cfg.files
          (some (httpError "Can\x27t parse multipart" 400))
          (some ParseError.multipartInitFailed))
    ∧ (r.multipartStream = some evs →
        parseMultipart hashHex { cfg with files := F } r dst =
          parseMultipart hashHex { cfg with files := F2 } r dst)
    ∧ resultFiles (parseJSON cfg r dst) = some cfg.files
    ∧ resultFiles (parseURLEncoded cfg r dst) = some cfg.files := by
  refine ⟨fun hn => ?_, fun hs => ?_, ?_, ?_⟩
  · simp only [parseMultipart, hn]
  · simp only [parseMultipart, hs]
    cases partsLoop hashHex cfg.allowedMIMETypes cfg.maxFileSize evs [] [] with
    | panicked => rfl
    | failed files resp e => rfl
    | finished values files =>
        cases h2 : cfg.validate (cfg.decode dst values).1 <;>
          simp [validateAndRespond, h2]
  · cases h : r.jsonBody dst with
    | none => simp [parseJSON, h, resultFiles]
    | some d2 =>
        simp only [parseJSON, h]
        exact resultFiles_validateAndRespond _ _ _
  · cases h : r.postForm with
    | none => simp [parseURLEncoded, h, resultFiles]
    | some pf =>
        simp only [parseURLEncoded, h]
        exact resultFiles_validateAndRespond _ _ _

/-- Witness for C6 on a concrete config carrying a stale entry: a
failed reader init keeps the stale entry, a successful one makes the
result independent of it, and the JSON and URL-form paths leave the map
as it was. -/
theorem c6_witness :
    parseMultipart exHash staleConfig mpInitFailReq () =
      ParseResult.ret () staleConfig.files
        (some (httpError "Can\x27t parse multipart" 400))
        (some ParseError.multipartInitFailed)
    ∧ parseMultipart exHash { staleConfig with files := [("avatar", staleFile)] }
        jsonReq () =
      parseMultipart exHash { staleConfig with files := [] } jsonReq ()
    ∧ resultFiles (parseJSON staleConfig jsonReq ()) = some staleConfig.files
    ∧ resultFiles (parseURLEncoded staleConfig jsonReq ()) =
        some staleConfig.files :=
  ⟨(c6_files_lifecycle exHash staleConfig [] [] mpInitFailReq () []).1 rfl,
   (c6_files_lifecycle exHash staleConfig [("avatar", staleFile)] [] jsonReq ()
      []).2.1 rfl,
   (c6_files_lifecycle exHash staleConfig [] [] jsonReq () []).2.2.1,
   (c6_files_lifecycle exHash staleConfig [] [] jsonReq () []).2.2.2⟩

/-- C7: decode/mapping failures inside the field mapper are swallowed:
the outcome of the URL-form and multipart parses depends only on the
value component of the decoder, never on its error component, and on
the URL-form path the parse result is exactly the validation of the
(possibly partially populated) decoded record — validation is the sole
authoritative gate. -/
theorem c7_mapper_error_swallowed (hashHex : Bytes → String) (cfg : Config α)
    (d1 d2 : α → Values → α × Bool) (r : Request α) (dst : α) (pf : Values)
    (hagree : ∀ a v, (d1 a v).1 = (d2 a v).1) :
    parseURLEncoded { cfg with decode := d1 } r dst =
      parseURLEncoded { cfg with decode := d2 } r dst
    ∧ parseMultipart hashHex { cfg with decode := d1 } r dst =
        parseMultipart hashHex { cfg with decode := d2 } r dst
    ∧ (r.postForm = some pf →
        parseURLEncoded cfg r dst =
          validateAndRespond cfg (cfg.decode dst pf).1 cfg.files) := by
  refine ⟨?_, ?_, fun hp => ?_⟩
  · cases h : r.postForm with
    | none => simp only [parseURLEncoded, h]
    | some pf2 =>
        simp only [parseURLEncoded, h]
        show validateAndRespond cfg (d1 dst pf2).1 cfg.files =
          validateAndRespond cfg (d2 dst pf2).1 cfg.files
        rw [hagree]
  · cases h : r.multipartStream with
    | none => simp only [parseMultipart, h]
    | some evs =>
        simp only [parseMultipart, h]
        cases partsLoop hashHex cfg.allowedMIMETypes cfg.maxFileSize evs [] [] with
        | panicked => rfl
        | failed f resp e => rfl
        | finished values files =>
            show validateAndRespond cfg (d1 dst values).1 files =
              validateAndRespond cfg (d2 dst values).1 files
            rw [hagree]
  · simp only [parseURLEncoded, hp]

/-- Witness for C7 with an always-failing and a never-failing decoder
that produce the same values. -/
theorem c7_witness :
    parseURLEncoded { staleConfig with decode := fun a _ => (a, true) }
        urlReq () =
      parseURLEncoded { staleConfig with decode := fun a _ => (a, false) }
        urlReq ()
    ∧ parseMultipart exHash { staleConfig with decode := fun a _ => (a, true) }
        urlReq () =
      parseMultipart exHash { staleConfig with decode := fun a _ => (a, false) }
        urlReq ()
    ∧ (urlReq.postForm = some [] →
        parseURLEncoded staleConfig urlReq () =
          validateAndRespond staleConfig (staleConfig.decode () []).1
            staleConfig.files) :=
  c7_mapper_error_swallowed exHash staleConfig (fun a _ => (a, true))
    (fun a _ => (a, false)) urlReq () [] (fun _ _ => rfl)

/-- C8: on a structured set of field violations the responder writes
status 400 with JSON content type and the body
message "Validation failed" plus the field-error map, and returns the
original validation error; the map is keyed by lower-cased field name
and holds the configured override message when present, otherwise the
synthesized "<field> is <tag>" message (stated for violation lists
whose lower-cased field names are distinct, as FieldErrorSet keys are
unique per field). -/
theorem c8_validation_error_response (cfg : Config α) (dst : α)
    (files : FilesMap) (ves : List FieldViolation)
    (hval : cfg.validate dst = ValidationOutcome.fieldViolations ves)
    (hnodup : (ves.map (fun ve => (toLowerStr ve.field))).Nodup) :
    validateAndRespond cfg dst files =
      ParseResult.ret dst files
        (some { status := 400
                contentTypeHeader := some "application/json"
                body := ResponseBody.jsonMessageFields "Validation failed"
                  (buildFieldErrors cfg.fieldErrorMessages ves) })
        (some (ParseError.validationFailed ves))
    ∧ ∀ ve ∈ ves,
        strMapGet (buildFieldErrors cfg.fieldErrorMessages ves)
            (toLowerStr ve.field) =
          some ((strMapGet cfg.fieldErrorMessages (toLowerStr ve.field)).getD
            ((toLowerStr ve.field) ++ " is " ++ ve.tag)) := by
  refine ⟨by simp [validateAndRespond, hval], fun ve hmem => ?_⟩
  exact strMapGet_foldl_of_mem cfg.fieldErrorMessages ves [] hnodup ve hmem

/-- Witness for C8: "Name" uses the configured override, "Email" gets
the synthesized message. -/
theorem c8_witness :
    validateAndRespond c8Config () [] =
      ParseResult.ret () []
        (some { status := 400
                contentTypeHeader := some "application/json"
                body := ResponseBody.jsonMessageFields "Validation failed"
                  (buildFieldErrors c8Config.fieldErrorMessages c8Ves) })
        (some (ParseError.validationFailed c8Ves))
    ∧ strMapGet (buildFieldErrors c8Config.fieldErrorMessages c8Ves)
        (toLowerStr (FieldViolation.mk "Email" "email").field) =
      some ((strMapGet c8Config.fieldErrorMessages
          (toLowerStr (FieldViolation.mk "Email" "email").field)).getD
        ((toLowerStr (FieldViolation.mk "Email" "email").field) ++ " is " ++
          (FieldViolation.mk "Email" "email").tag)) :=
  ⟨(c8_validation_error_response c8Config () [] c8Ves rfl (by decide)).1,
   (c8_validation_error_response c8Config () [] c8Ves rfl (by decide)).2
     (FieldViolation.mk "Email" "email") (by decide)⟩

end FormParser
